import Mathlib

/-!
Verification of the banking-shared-ts messaging core: a shallow embedding of
the event-envelope constructor (`createBaseEvent`), the Kafka producer
(`BaseProducer.connect` / `publish` / `publishBatch`) and the Kafka consumer
(`BaseConsumer.start` / `pause` / `resume` and the `eachMessage` loop body),
together with theorems settling the spec's testable properties.

Modelling conventions:
* The external `uuid` library's `v4` generator is modelled as a draw from a
  counter rendered injectively into a non-empty string (its contract:
  fresh, non-empty, globally unique ids).
* `new Date()` is modelled by a millisecond clock value carried in the
  effect state `Gen`; ISO-8601 rendering is strictly monotone in the
  instant, so the clock is kept as a `Nat` and "no earlier than" is `≤`.
* The external Kafka transport is an oracle: `send` outcomes are a function
  parameter, and every transport primitive invocation is recorded in an
  explicit trace list so "never calls send/subscribe" is a statement about
  the trace.
* Logging (winston) has no observable effect and is elided.
* TypeScript functions that can throw are embedded in `Except`; `null`
  results are `Option.none`.
-/

namespace BankingShared

/-! ## Event types (src events file): the closed enumeration -/

def transactionEventTypes : List String :=
  ["TransactionInitiated", "TransactionAnalyzing", "TransactionApproved",
   "TransactionRejected", "TransactionCompleted", "TransactionFailed",
   "TransactionCancelled", "TransactionWaitingReview"]

def fraudEventTypes : List String :=
  ["FraudAnalysisComplete", "FraudSuspected", "FraudReviewComplete",
   "ManualReviewRequired", "BlocklistMatch"]

def userEventTypes : List String :=
  ["UserCreated", "UserUpdated", "UserLocked", "UserPasswordChanged"]

def securityEventTypes : List String :=
  ["user.login.success", "user.login.failed", "user.mfa.enabled",
   "user.mfa.disabled", "security.all_tokens_revoked", "jwt.key.rotated",
   "security.anomaly_detected", "user.registered", "user.email.verified",
   "user.password.reset_requested", "user.password.reset",
   "user.device.registered", "user.device.revoked", "session.created",
   "session.terminated"]

def notificationEventTypes : List String :=
  ["NotificationSent", "NotificationFailed", "NotificationRequested"]

def amlEventTypes : List String :=
  ["AMLScreeningComplete", "SARFiled", "RiskProfileUpdated"]

/-- The closed `EventType` union: every string literal admitted by the
TypeScript type `EventType`. -/
def eventTypeValues : List String :=
  transactionEventTypes ++ fraudEventTypes ++ userEventTypes ++
  securityEventTypes ++ notificationEventTypes ++ amlEventTypes

/-- Membership in the closed enumeration. -/
def isEventType (s : String) : Bool := eventTypeValues.contains s

/-! ## Envelope (`BaseEvent`) and its constructor -/

/-- The `BaseEvent` interface: the envelope's own fields.  The `timestamp`
is kept as the millisecond instant (see module comment). -/
structure BaseEvent where
  eventId : String
  eventType : String
  timestamp : Nat
  version : String
  correlationId : Option String
  causationId : Option String
  source : String
deriving Repr, DecidableEq

/-- Effect state consumed by `createBaseEvent`: the uuid draw counter and
the current clock reading. -/
structure Gen where
  uuidCount : Nat
  now : Nat
deriving Repr, DecidableEq

/-- Rendering of the n-th uuid draw: injective and non-empty, which is all
the `uuid` library's `v4` contract guarantees. -/
def uuidString (n : Nat) : String := String.mk (List.replicate (n + 1) 'u')

/-- Model of `uuidv4()`: returns a fresh id and advances the draw counter. -/
def uuidv4 (g : Gen) : String × Gen :=
  (uuidString g.uuidCount, { g with uuidCount := g.uuidCount + 1 })

/-- `createBaseEvent(eventType, source)`: fresh `eventId`, current
timestamp, fixed version `1.0`, correlation/causation ids absent.  The
TypeScript body performs no validation of `eventType`; at runtime it is an
arbitrary string (the `EventType` constraint is static only). -/
def createBaseEvent (eventType source : String) (g : Gen) : BaseEvent × Gen :=
  let (id, g') := uuidv4 g
  ({ eventId := id
     eventType := eventType
     timestamp := g.now
     version := "1.0"
     correlationId := none
     causationId := none
     source := source }, g')

/-- Error alphabet for envelope construction named by the spec. -/
inductive EnvelopeError where
  | invalidEventType (given : String)
deriving Repr, DecidableEq

/-- The runtime behaviour of a call to `createBaseEvent`, as an `Except`
computation (a TypeScript function may throw; this one never does: its body
is a single object literal return). -/
def createBaseEventRun (eventType source : String) (g : Gen) :
    Except EnvelopeError (BaseEvent × Gen) :=
  Except.ok (createBaseEvent eventType source g)

/-! ### Basic facts about the uuid model -/

theorem uuidString_length (n : Nat) : (uuidString n).length = n + 1 := by
  simp [uuidString, String.length]

theorem uuidString_ne_empty (n : Nat) : uuidString n ≠ "" := by
  intro h
  have hlen := congrArg String.length h
  rw [uuidString_length] at hlen
  simp at hlen

theorem uuidString_injective : Function.Injective uuidString := by
  intro m n h
  have hlen := congrArg String.length h
  rw [uuidString_length, uuidString_length] at hlen
  omega

/-! ### Claims C9 and C3: envelope construction -/

/-- C9: for every valid `eventType` and `source`, `createBaseEvent` returns
an envelope whose `eventId` is non-empty and distinct from the id of any
subsequent call, whose `timestamp` is no earlier than the call's start
instant, whose `version` is the fixed string `1.0`, and whose
`correlationId` and `causationId` are unset. -/
theorem createBaseEvent_fresh (et et2 src src2 : String) (g : Gen)
    (_hvalid : isEventType et = true) (_hvalid2 : isEventType et2 = true) :
    (createBaseEvent et src g).1.eventId ≠ ""
    ∧ g.now ≤ (createBaseEvent et src g).1.timestamp
    ∧ (createBaseEvent et src g).1.version = "1.0"
    ∧ (createBaseEvent et src g).1.correlationId = none
    ∧ (createBaseEvent et src g).1.causationId = none
    ∧ (createBaseEvent et2 src2 (createBaseEvent et src g).2).1.eventId
        ≠ (createBaseEvent et src g).1.eventId := by
  refine ⟨uuidString_ne_empty g.uuidCount, Nat.le_refl _, rfl, rfl, rfl, ?_⟩
  intro hEq
  simp only [createBaseEvent, uuidv4] at hEq
  have := uuidString_injective hEq
  omega

/-- Witness for C9 at a concrete valid event type and source. -/
theorem createBaseEvent_fresh_witness :
    isEventType "TransactionInitiated" = true
    ∧ isEventType "UserCreated" = true
    ∧ ((createBaseEvent "TransactionInitiated" "txn-svc" ⟨0, 5⟩).1.eventId ≠ ""
      ∧ (5 : Nat) ≤ (createBaseEvent "TransactionInitiated" "txn-svc" ⟨0, 5⟩).1.timestamp
      ∧ (createBaseEvent "TransactionInitiated" "txn-svc" ⟨0, 5⟩).1.version = "1.0"
      ∧ (createBaseEvent "TransactionInitiated" "txn-svc" ⟨0, 5⟩).1.correlationId = none
      ∧ (createBaseEvent "TransactionInitiated" "txn-svc" ⟨0, 5⟩).1.causationId = none
      ∧ (createBaseEvent "UserCreated" "user-svc"
            (createBaseEvent "TransactionInitiated" "txn-svc" ⟨0, 5⟩).2).1.eventId
          ≠ (createBaseEvent "TransactionInitiated" "txn-svc" ⟨0, 5⟩).1.eventId) :=
  ⟨by decide, by decide,
   createBaseEvent_fresh "TransactionInitiated" "UserCreated" "txn-svc" "user-svc"
     ⟨0, 5⟩ (by decide) (by decide)⟩

/-- C3 counterexample: `"NotARealEventType"` is outside the closed
enumeration, yet `createBaseEvent` does not fail — it returns an envelope
carrying that string as its `eventType`.  There is no runtime
`InvalidEventType` check anywhere in the construction path. -/
theorem createBaseEvent_no_runtime_check_cex :
    isEventType "NotARealEventType" = false
    ∧ createBaseEventRun "NotARealEventType" "svc" ⟨0, 0⟩
        = Except.ok (createBaseEvent "NotARealEventType" "svc" ⟨0, 0⟩)
    ∧ (createBaseEvent "NotARealEventType" "svc" ⟨0, 0⟩).1.eventType
        = "NotARealEventType" :=
  ⟨by decide, rfl, rfl⟩

/-- C3 (amended): membership of `eventType` in the closed enumeration is
enforced only statically by the TypeScript type; at runtime
`createBaseEvent` performs no validation and, for every string whatsoever,
succeeds with an envelope carrying that string verbatim — it never raises
`InvalidEventType`. -/
theorem createBaseEventRun_never_fails (et src : String) (g : Gen) :
    createBaseEventRun et src g = Except.ok (createBaseEvent et src g)
    ∧ (createBaseEvent et src g).1.eventType = et :=
  ⟨rfl, rfl⟩

/-! ## Producer (`BaseProducer`) -/

/-- The fixed `eventVersion` field of `BaseProducer`. -/
def eventVersion : String := "1.0"

/-- Mutable state of a `BaseProducer` instance: whether `this.producer` has
been assigned, the `isConnected` flag, and the configured service name. -/
structure ProducerState where
  producerCreated : Bool
  isConnected : Bool
  serviceName : String
deriving Repr, DecidableEq

/-- One message handed to the transport's `send`.  Headers are an ordered
association list; a later binding for the same key overrides an earlier one
(JavaScript object spread semantics), which `headerGet` realises by taking
the last binding. -/
structure KafkaMessage where
  key : String
  value : String
  headers : List (String × String)
deriving Repr, DecidableEq

/-- One invocation of the transport's `producer.send`. -/
structure SendRequest where
  topic : String
  messages : List KafkaMessage
deriving Repr, DecidableEq

/-- Per-message delivery metadata returned by the transport (kafkajs
`RecordMetadata`); opaque to this core. -/
structure RecordMetadata where
  topicName : String
  partition : Nat
  errorCode : Nat
  offset : String
deriving Repr, DecidableEq

/-- `PublishOptions`: an optional correlation id and optional extra
headers (absent extra headers are the empty list, which spreads to
nothing). -/
structure PublishOptions where
  correlationId : Option String
  headers : List (String × String)
deriving Repr, DecidableEq

/-- Header lookup under object-spread semantics: the last binding of a key
wins. -/
def headerGet (hs : List (String × String)) (k : String) : Option String :=
  match hs.reverse.find? (fun kv => kv.fst == k) with
  | some kv => some kv.snd
  | none => none

/-- `JSON.stringify({...event, payload})`: the serialized wire value.
Optional fields that are `undefined` are omitted by `JSON.stringify`, hence
the conditional fragments. -/
def serializeMessage (e : BaseEvent) (payload : String) : String :=
  "\x7b\"eventId\":\"" ++ e.eventId
    ++ "\",\"eventType\":\"" ++ e.eventType
    ++ "\",\"timestamp\":\"" ++ toString e.timestamp
    ++ "\",\"version\":\"" ++ e.version ++ "\""
    ++ (match e.correlationId with
        | some c => ",\"correlationId\":\"" ++ c ++ "\""
        | none => "")
    ++ (match e.causationId with
        | some c => ",\"causationId\":\"" ++ c ++ "\""
        | none => "")
    ++ ",\"source\":\"" ++ e.source ++ "\",\"payload\":" ++ payload ++ "\x7d"

/-- Transport lifecycle calls made by `connect`. -/
inductive ConnectCall where
  | createProducerCall
  | connectCall
deriving Repr, DecidableEq

/-- `BaseProducer.connect()`: early-returns when already connected;
otherwise creates the transport producer, assigns it, and awaits its
`connect`, whose outcome (`connectOutcome`) the transport decides.  On
failure the error propagates, with the producer assigned but the
`isConnected` flag still false. -/
def connect (p : ProducerState) (connectOutcome : Except String Unit) :
    Except String Unit × ProducerState × List ConnectCall :=
  if p.isConnected then (Except.ok (), p, [])
  else
    let p1 : ProducerState := { p with producerCreated := true }
    match connectOutcome with
    | Except.ok _ =>
        (Except.ok (), { p1 with isConnected := true },
         [ConnectCall.createProducerCall, ConnectCall.connectCall])
    | Except.error e =>
        (Except.error e, p1,
         [ConnectCall.createProducerCall, ConnectCall.connectCall])

/-- The correlation-id transport header value:
`options?.correlationId || ''` (empty string when options or the id are
absent; JavaScript `||` also maps an empty id to the empty string, which
coincides with `getD`). -/
def correlationHeader (options : Option PublishOptions) : String :=
  (options.bind fun o => o.correlationId).getD ""

/-- The single message built by `publish`: key, serialized envelope plus
payload, and the four standard headers followed by any caller-supplied
extra headers (which, spread last, may override). -/
def buildPublishMessage (p : ProducerState) (g : Gen)
    (eventType payload key : String) (options : Option PublishOptions) :
    KafkaMessage :=
  let base := (createBaseEvent eventType p.serviceName g).1
  let event : BaseEvent :=
    { base with correlationId := options.bind fun o => o.correlationId }
  { key := key
    value := serializeMessage event payload
    headers :=
      [("event-type", eventType), ("event-version", eventVersion),
       ("source-service", p.serviceName),
       ("correlation-id", correlationHeader options)]
      ++ (options.map fun o => o.headers).getD [] }

/-- Result of a publish call: the returned value (or propagated transport
error), the post-call effect state, and the trace of transport `send`
invocations. -/
structure PublishOutcome where
  result : Except String (Option (List RecordMetadata))
  gen : Gen
  sends : List SendRequest
deriving Repr

instance : DecidableEq (Except String (Option (List RecordMetadata))) := fun a b =>
  match a, b with
  | Except.ok x, Except.ok y =>
      if h : x = y then isTrue (by rw [h]) else isFalse (by simp [h])
  | Except.error x, Except.error y =>
      if h : x = y then isTrue (by rw [h]) else isFalse (by simp [h])
  | Except.ok _, Except.error _ => isFalse (by simp)
  | Except.error _, Except.ok _ => isFalse (by simp)

instance : DecidableEq PublishOutcome := fun a b =>
  match a, b with
  | ⟨r1, g1, s1⟩, ⟨r2, g2, s2⟩ =>
      if h : r1 = r2 ∧ g1 = g2 ∧ s1 = s2 then
        isTrue (by obtain ⟨h1, h2, h3⟩ := h; rw [h1, h2, h3])
      else isFalse (by intro hEq; cases hEq; exact h ⟨rfl, rfl, rfl⟩)

/-- `BaseProducer.publish(topic, eventType, payload, key, options?)`.
Disconnected (or producer unassigned): logs locally and returns `null`
without touching the transport.  Connected: builds the envelope and the
single-message request, awaits the transport's `send`, returns its
metadata, and re-throws its error. -/
def publish (p : ProducerState)
    (sendOutcome : SendRequest → Except String (List RecordMetadata))
    (g : Gen) (topic eventType payload key : String)
    (options : Option PublishOptions) : PublishOutcome :=
  if !p.producerCreated || !p.isConnected then
    { result := Except.ok none, gen := g, sends := [] }
  else
    let msg := buildPublishMessage p g eventType payload key options
    let g' := (createBaseEvent eventType p.serviceName g).2
    let req : SendRequest := { topic := topic, messages := [msg] }
    match sendOutcome req with
    | Except.ok md => { result := Except.ok (some md), gen := g', sends := [req] }
    | Except.error e => { result := Except.error e, gen := g', sends := [req] }

/-- One element of `publishBatch`'s input list. -/
structure BatchMessage where
  eventType : String
  payload : String
  key : String
deriving Repr, DecidableEq

/-- The `messages.map(...)` body of `publishBatch`: each input becomes a
message with a fresh envelope (uuid draws in input order) and exactly three
headers — `correlation-id` is not among them. -/
def buildBatchMessages (p : ProducerState) (options : Option PublishOptions) :
    List BatchMessage → Gen → List KafkaMessage × Gen
  | [], g => ([], g)
  | m :: ms, g =>
      let base := (createBaseEvent m.eventType p.serviceName g).1
      let g' := (createBaseEvent m.eventType p.serviceName g).2
      let event : BaseEvent :=
        { base with correlationId := options.bind fun o => o.correlationId }
      let km : KafkaMessage :=
        { key := m.key
          value := serializeMessage event m.payload
          headers :=
            [("event-type", m.eventType), ("event-version", eventVersion),
             ("source-service", p.serviceName)] }
      let (rest, g'') := buildBatchMessages p options ms g'
      (km :: rest, g'')

/-- `BaseProducer.publishBatch(topic, messages, options?)`: `null` when
disconnected; otherwise one `send` carrying every translated message. -/
def publishBatch (p : ProducerState)
    (sendOutcome : SendRequest → Except String (List RecordMetadata))
    (g : Gen) (topic : String) (messages : List BatchMessage)
    (options : Option PublishOptions) : PublishOutcome :=
  if !p.producerCreated || !p.isConnected then
    { result := Except.ok none, gen := g, sends := [] }
  else
    let (kafkaMessages, g') := buildBatchMessages p options messages g
    let req : SendRequest := { topic := topic, messages := kafkaMessages }
    match sendOutcome req with
    | Except.ok md => { result := Except.ok (some md), gen := g', sends := [req] }
    | Except.error e => { result := Except.error e, gen := g', sends := [req] }

/-! ### Concrete instances used by witnesses -/

/-- A connected producer configured for service `test-service`. -/
def producerEx : ProducerState :=
  { producerCreated := true, isConnected := true, serviceName := "test-service" }

/-- A freshly constructed (never connected) producer. -/
def producerDiscEx : ProducerState :=
  { producerCreated := false, isConnected := false, serviceName := "test-service" }

/-- An initial effect state. -/
def genEx : Gen := { uuidCount := 0, now := 0 }

/-- A transport whose `send` always succeeds with empty metadata. -/
def sendOk : SendRequest → Except String (List RecordMetadata) :=
  fun _ => Except.ok []

/-! ### Claim C10: `connect` is idempotent once connected -/

/-- C10: calling `connect()` on an already-connected producer returns
immediately with success, leaves the state untouched, and makes no
transport calls (neither producer creation nor the transport `connect`). -/
theorem connect_idempotent (p : ProducerState) (o : Except String Unit)
    (h : p.isConnected = true) :
    connect p o = (Except.ok (), p, []) := by
  simp [connect, h]

/-- Witness for C10 at a concrete connected producer. -/
theorem connect_idempotent_witness :
    producerEx.isConnected = true
    ∧ connect producerEx (Except.ok ()) = (Except.ok (), producerEx, []) :=
  ⟨rfl, connect_idempotent producerEx (Except.ok ()) rfl⟩

/-! ### Claim C2: publishing while disconnected -/

/-- C2: for every topic, event type, payload, key, and options, `publish`
on a producer whose `isConnected` flag is false returns the non-throwing
`null` signal (`Except.ok none`: it neither throws nor delivers), changes
no effect state, and performs no transport `send`. -/
theorem publish_disconnected_unavailable (p : ProducerState)
    (sendOutcome : SendRequest → Except String (List RecordMetadata))
    (g : Gen) (topic eventType payload key : String)
    (options : Option PublishOptions) (h : p.isConnected = false) :
    publish p sendOutcome g topic eventType payload key options
      = { result := Except.ok none, gen := g, sends := [] } := by
  simp [publish, h]

/-- Witness for C2 at a concrete disconnected producer. -/
theorem publish_disconnected_unavailable_witness :
    producerDiscEx.isConnected = false
    ∧ publish producerDiscEx sendOk genEx "banking.users.events" "UserCreated"
        "\x7b\"id\":\"u1\"\x7d" "u1" none
      = { result := Except.ok none, gen := genEx, sends := [] } :=
  ⟨rfl, publish_disconnected_unavailable producerDiscEx sendOk genEx
    "banking.users.events" "UserCreated" "\x7b\"id\":\"u1\"\x7d" "u1" none rfl⟩

/-! ### Shared facts about the send traces -/

/-- A connected `publish` issues exactly the one-message request, whatever
the transport's answer. -/
theorem publish_sends_eq (p : ProducerState)
    (sendOutcome : SendRequest → Except String (List RecordMetadata))
    (g : Gen) (topic eventType payload key : String)
    (options : Option PublishOptions)
    (hp : p.producerCreated = true) (hc : p.isConnected = true) :
    (publish p sendOutcome g topic eventType payload key options).sends
      = [{ topic := topic,
           messages := [buildPublishMessage p g eventType payload key options] }] := by
  unfold publish
  rw [hp, hc]
  simp only [Bool.not_true, Bool.or_self, Bool.false_or, if_false, ite_false]
  cases sendOutcome
      { topic := topic,
        messages := [buildPublishMessage p g eventType payload key options] } <;>
    rfl

/-- A connected `publishBatch` issues exactly the one request carrying the
translated messages, whatever the transport's answer. -/
theorem publishBatch_sends_eq (p : ProducerState)
    (sendOutcome : SendRequest → Except String (List RecordMetadata))
    (g : Gen) (topic : String) (msgs : List BatchMessage)
    (options : Option PublishOptions)
    (hp : p.producerCreated = true) (hc : p.isConnected = true) :
    (publishBatch p sendOutcome g topic msgs options).sends
      = [{ topic := topic,
           messages := (buildBatchMessages p options msgs g).1 }] := by
  unfold publishBatch
  rw [hp, hc]
  simp only [Bool.not_true, Bool.or_self, Bool.false_or, if_false, ite_false]
  cases sendOutcome
      { topic := topic, messages := (buildBatchMessages p options msgs g).1 } <;>
    rfl

/-! ### Claim C5: publishing while connected -/

/-- C5: for every topic, event type, payload, and partition key, `publish`
on a connected producer performs exactly one transport `send`, carrying a
single message whose `key` is the caller-supplied partition key and whose
headers bind `event-type` to the given event type and `source-service` to
the producer's configured service name. -/
theorem publish_connected_send_once (p : ProducerState)
    (sendOutcome : SendRequest → Except String (List RecordMetadata))
    (g : Gen) (topic eventType payload key : String)
    (hp : p.producerCreated = true) (hc : p.isConnected = true) :
    (publish p sendOutcome g topic eventType payload key none).sends
      = [{ topic := topic,
           messages := [buildPublishMessage p g eventType payload key none] }]
    ∧ (buildPublishMessage p g eventType payload key none).key = key
    ∧ headerGet (buildPublishMessage p g eventType payload key none).headers
        "event-type" = some eventType
    ∧ headerGet (buildPublishMessage p g eventType payload key none).headers
        "source-service" = some p.serviceName := by
  exact ⟨publish_sends_eq p sendOutcome g topic eventType payload key none hp hc,
    rfl, rfl, rfl⟩

/-- Witness for C5 at a concrete connected producer and message. -/
theorem publish_connected_send_once_witness :
    producerEx.producerCreated = true ∧ producerEx.isConnected = true
    ∧ ((publish producerEx sendOk genEx "banking.users.events" "UserCreated"
          "\x7b\"id\":\"u1\"\x7d" "u1" none).sends
        = [{ topic := "banking.users.events",
             messages := [buildPublishMessage producerEx genEx "UserCreated"
               "\x7b\"id\":\"u1\"\x7d" "u1" none] }]
      ∧ (buildPublishMessage producerEx genEx "UserCreated"
          "\x7b\"id\":\"u1\"\x7d" "u1" none).key = "u1"
      ∧ headerGet (buildPublishMessage producerEx genEx "UserCreated"
          "\x7b\"id\":\"u1\"\x7d" "u1" none).headers "event-type"
          = some "UserCreated"
      ∧ headerGet (buildPublishMessage producerEx genEx "UserCreated"
          "\x7b\"id\":\"u1\"\x7d" "u1" none).headers "source-service"
          = some producerEx.serviceName) :=
  ⟨rfl, rfl,
   publish_connected_send_once producerEx sendOk genEx "banking.users.events"
     "UserCreated" "\x7b\"id\":\"u1\"\x7d" "u1" rfl rfl⟩

/-! ### Claim C7: batch publishing order -/

/-- Specification of the batch wire values, written directly from the
spec's wording ("all N messages in the caller's input order"): the i-th
value serializes the i-th input's envelope, built with the i-th uuid draw
and the call's clock instant.  Compared against `buildBatchMessages`,
which embeds the source's `messages.map(...)`. -/
def batchValuesSpec (p : ProducerState) (options : Option PublishOptions) :
    List BatchMessage → Nat → Nat → List String
  | [], _, _ => []
  | m :: ms, n, now =>
      serializeMessage
        { eventId := uuidString n
          eventType := m.eventType
          timestamp := now
          version := "1.0"
          correlationId := options.bind fun o => o.correlationId
          causationId := none
          source := p.serviceName } m.payload
        :: batchValuesSpec p options ms (n + 1) now

theorem buildBatchMessages_keys (p : ProducerState)
    (options : Option PublishOptions) (msgs : List BatchMessage) (g : Gen) :
    ((buildBatchMessages p options msgs g).1.map fun m => m.key)
      = (msgs.map fun m => m.key) := by
  induction msgs generalizing g with
  | nil => rfl
  | cons m ms ih => simp [buildBatchMessages, ih]

theorem buildBatchMessages_values (p : ProducerState)
    (options : Option PublishOptions) (msgs : List BatchMessage) (g : Gen) :
    ((buildBatchMessages p options msgs g).1.map fun m => m.value)
      = batchValuesSpec p options msgs g.uuidCount g.now := by
  induction msgs generalizing g with
  | nil => rfl
  | cons m ms ih =>
      simp only [buildBatchMessages, batchValuesSpec, List.map_cons, List.cons.injEq]
      exact ⟨rfl, ih { uuidCount := g.uuidCount + 1, now := g.now }⟩

/-- C7: for every input list, `publishBatch` on a connected producer makes
exactly one transport `send`, whose message list has the input's keys in
input order and whose serialized values are exactly the inputs' envelopes
plus payloads in input order (`batchValuesSpec`). -/
theorem publishBatch_single_send_ordered (p : ProducerState)
    (sendOutcome : SendRequest → Except String (List RecordMetadata))
    (g : Gen) (topic : String) (msgs : List BatchMessage)
    (options : Option PublishOptions)
    (hp : p.producerCreated = true) (hc : p.isConnected = true) :
    (publishBatch p sendOutcome g topic msgs options).sends
      = [{ topic := topic, messages := (buildBatchMessages p options msgs g).1 }]
    ∧ ((buildBatchMessages p options msgs g).1.map fun m => m.key)
        = (msgs.map fun m => m.key)
    ∧ ((buildBatchMessages p options msgs g).1.map fun m => m.value)
        = batchValuesSpec p options msgs g.uuidCount g.now := by
  exact ⟨publishBatch_sends_eq p sendOutcome g topic msgs options hp hc,
    buildBatchMessages_keys p options msgs g,
    buildBatchMessages_values p options msgs g⟩

/-- A concrete two-message batch. -/
def batchEx : List BatchMessage :=
  [{ eventType := "UserCreated", payload := "\x7b\"id\":\"1\"\x7d", key := "1" },
   { eventType := "UserUpdated", payload := "\x7b\"id\":\"2\"\x7d", key := "2" }]

/-- Witness for C7 at a concrete two-message batch. -/
theorem publishBatch_single_send_ordered_witness :
    producerEx.producerCreated = true ∧ producerEx.isConnected = true
    ∧ ((publishBatch producerEx sendOk genEx "banking.users.events" batchEx
          none).sends
        = [{ topic := "banking.users.events",
             messages := (buildBatchMessages producerEx none batchEx genEx).1 }]
      ∧ ((buildBatchMessages producerEx none batchEx genEx).1.map fun m => m.key)
          = (batchEx.map fun m => m.key)
      ∧ ((buildBatchMessages producerEx none batchEx genEx).1.map fun m => m.value)
          = batchValuesSpec producerEx none batchEx genEx.uuidCount genEx.now) :=
  ⟨rfl, rfl,
   publishBatch_single_send_ordered producerEx sendOk genEx
     "banking.users.events" batchEx none rfl rfl⟩


/-! ### Claim C8: header redundancy (corrected) -/

theorem find?_append_right {A : Type} (p : A → Bool) (as bs : List A)
    (h : (bs.find? p).isSome = true) :
    ((as ++ bs).find? p).isSome = true := by
  induction as with
  | nil => simpa using h
  | cons a as ih =>
      by_cases hpa : p a = true
      · simp [List.find?_cons_of_pos _ hpa]
      · simpa [List.find?_cons_of_neg _ (by simpa using hpa)] using ih

theorem headerGet_isSome_eq (hs : List (String × String)) (k : String) :
    (headerGet hs k).isSome
      = (hs.reverse.find? fun kv => kv.fst == k).isSome := by
  unfold headerGet
  cases hs.reverse.find? fun kv => kv.fst == k <;> rfl

/-- Presence of a key in combined headers survives the spread of any
caller-supplied extra headers (later bindings may override the value but
the key stays bound). -/
theorem headerGet_append_isSome (hs ks : List (String × String)) (k : String)
    (h : (headerGet hs k).isSome = true) :
    (headerGet (hs ++ ks) k).isSome = true := by
  rw [headerGet_isSome_eq, List.reverse_append]
  rw [headerGet_isSome_eq] at h
  exact find?_append_right _ ks.reverse hs.reverse h

/-- Boolean check that every message of a request binds each `required`
header key and binds none of the `absent` ones. -/
def carriesHeaderKeys (required absent : List String) (req : SendRequest) :
    Bool :=
  req.messages.all fun m =>
    (required.all fun k => (headerGet m.headers k).isSome)
    && (absent.all fun k => (headerGet m.headers k).isNone)

/-- Every message built by `publishBatch` has exactly the three headers
`event-type`, `event-version`, `source-service`. -/
theorem buildBatchMessages_headers (p : ProducerState)
    (options : Option PublishOptions) (msgs : List BatchMessage) (g : Gen) :
    ∀ m ∈ (buildBatchMessages p options msgs g).1,
      ∃ et, m.headers
        = [("event-type", et), ("event-version", eventVersion),
           ("source-service", p.serviceName)] := by
  induction msgs generalizing g with
  | nil => intro m hm; simp [buildBatchMessages] at hm
  | cons b bs ih =>
      intro m hm
      simp only [buildBatchMessages, List.mem_cons] at hm
      cases hm with
      | inl hEq => exact ⟨b.eventType, by rw [hEq]⟩
      | inr hMem => exact ih _ m hMem

/-- C8 counterexample: a connected `publishBatch` call that supplies a
correlation id nevertheless sends its (single) message without any
`correlation-id` header — the batch path writes only three header fields,
so not every produced message carries all four. -/
theorem publishBatch_missing_correlation_cex :
    ((publishBatch producerEx sendOk genEx "banking.users.events"
        [{ eventType := "UserCreated", payload := "\x7b\x7d", key := "u1" }]
        (some { correlationId := some "corr-1", headers := [] })).sends.map
      fun r => r.messages.map fun m =>
        (headerGet m.headers "correlation-id", headerGet m.headers "event-type"))
      = [[(none, some "UserCreated")]] := by
  decide

/-- C8 (amended): messages produced via `publish` carry all four header
fields `event-type`, `event-version`, `source-service`, `correlation-id`
(whatever the options); messages produced via `publishBatch` carry only
`event-type`, `event-version` and `source-service`, and never a
`correlation-id` header. -/
theorem headers_redundant_amended (p : ProducerState)
    (sendOutcome : SendRequest → Except String (List RecordMetadata))
    (g : Gen) (topic eventType payload key : String)
    (options : Option PublishOptions) (msgs : List BatchMessage)
    (hp : p.producerCreated = true) (hc : p.isConnected = true) :
    ((publish p sendOutcome g topic eventType payload key options).sends.all
      (carriesHeaderKeys
        ["event-type", "event-version", "source-service", "correlation-id"] []))
      = true
    ∧ ((publishBatch p sendOutcome g topic msgs options).sends.all
      (carriesHeaderKeys ["event-type", "event-version", "source-service"]
        ["correlation-id"])) = true := by
  constructor
  · have hsend := publish_sends_eq p sendOutcome g topic eventType payload key
      options hp hc
    rw [hsend]
    simp only [List.all_cons, List.all_nil, Bool.and_true]
    unfold carriesHeaderKeys
    simp only [List.all_cons, List.all_nil, Bool.and_true]
    unfold buildPublishMessage
    simp only [List.all_cons, List.all_nil, Bool.and_true]
    refine (Bool.and_eq_true _ _).mpr
      ⟨headerGet_append_isSome _ _ _ rfl, ?_⟩
    refine (Bool.and_eq_true _ _).mpr
      ⟨headerGet_append_isSome _ _ _ rfl, ?_⟩
    exact (Bool.and_eq_true _ _).mpr
      ⟨headerGet_append_isSome _ _ _ rfl, headerGet_append_isSome _ _ _ rfl⟩
  · have hsend := publishBatch_sends_eq p sendOutcome g topic msgs options hp hc
    rw [hsend]
    simp only [List.all_cons, List.all_nil, Bool.and_true]
    unfold carriesHeaderKeys
    rw [List.all_eq_true]
    intro m hm
    obtain ⟨et, hh⟩ := buildBatchMessages_headers p options msgs g m hm
    rw [hh]
    rfl



/-- Witness for the amended C8 at concrete publish and batch calls. -/
theorem headers_redundant_amended_witness :
    producerEx.producerCreated = true ∧ producerEx.isConnected = true
    ∧ (((publish producerEx sendOk genEx "banking.users.events" "UserCreated"
          "\x7b\x7d" "u1" none).sends.all
        (carriesHeaderKeys
          ["event-type", "event-version", "source-service", "correlation-id"]
          [])) = true
      ∧ ((publishBatch producerEx sendOk genEx "banking.users.events" batchEx
          none).sends.all
        (carriesHeaderKeys ["event-type", "event-version", "source-service"]
          ["correlation-id"])) = true) :=
  ⟨rfl, rfl,
   headers_redundant_amended producerEx sendOk genEx "banking.users.events"
     "UserCreated" "\x7b\x7d" "u1" none batchEx rfl rfl⟩

/-! ## Consumer (`BaseConsumer`) -/

/-- The raw message delivered to the `eachMessage` callback (kafkajs
`EachMessagePayload`, flattened). -/
structure EachMessagePayload where
  topic : String
  partition : Nat
  offset : Nat
  key : String
  value : String
deriving Repr, DecidableEq

/-- A message handler: resolves (`ok`) or rejects with an error. -/
def MessageHandler : Type := EachMessagePayload → Except String Unit

/-- The body of the `eachMessage` callback that `BaseConsumer.start`
installs: it awaits the registered handler; on success it logs and returns
normally, on failure it logs and re-throws the same error (the source
comment: "Re-throw to prevent offset commit"). -/
def consumerEachMessage (handler : MessageHandler)
    (payload : EachMessagePayload) : Except String Unit :=
  match handler payload with
  | Except.ok _ => Except.ok ()
  | Except.error e => Except.error e

/-- Modelled from the spec (§6, transport collaborator contract — the
broker itself is not part of this repository): the transport "does not
advance committed position until `onMessage` returns successfully", so
progress for a message advances exactly when the callback's outcome is
`ok`. -/
def offsetAdvanced (callbackOutcome : Except String Unit) : Bool :=
  match callbackOutcome with
  | Except.ok _ => true
  | Except.error _ => false

/-- Mutable state of a `BaseConsumer` instance, together with the paused
topic set of the transport connection it exclusively owns (`pause()` does
not touch the instance's own flags; the paused/running delivery state lives
in the transport). -/
structure ConsumerState where
  consumerCreated : Bool
  isConnected : Bool
  isRunning : Bool
  topics : List String
  pausedTopics : List String
deriving Repr, DecidableEq

/-- Transport primitives a consumer lifecycle call may invoke. -/
inductive ConsumerCall where
  | subscribeCall (topics : List String) (fromBeginning : Bool)
  | runCall
  | pauseCall (topics : List String)
  | resumeCall (topics : List String)
deriving Repr, DecidableEq

/-- Errors thrown by consumer lifecycle methods. -/
inductive ConsumerError where
  | notInitialized
  | handlerNotSet
deriving Repr, DecidableEq

/-- `BaseConsumer.start()`: requires the consumer object and a registered
handler; then subscribes to all configured topics (`fromBeginning: false`),
starts the run loop, and sets `isRunning`. -/
def start (c : ConsumerState) (handler : Option MessageHandler) :
    Except ConsumerError ConsumerState × List ConsumerCall :=
  if c.consumerCreated = false then
    (Except.error ConsumerError.notInitialized, [])
  else
    match handler with
    | none => (Except.error ConsumerError.handlerNotSet, [])
    | some _ =>
        (Except.ok { c with isRunning := true },
         [ConsumerCall.subscribeCall c.topics false, ConsumerCall.runCall])

/-- `BaseConsumer.pause()`: when the consumer object exists and the loop is
running, asks the transport to pause delivery for every configured topic;
otherwise does nothing.  No instance flag changes. -/
def pause (c : ConsumerState) : ConsumerState × List ConsumerCall :=
  if c.consumerCreated && c.isRunning then
    ({ c with pausedTopics := c.pausedTopics ++ c.topics },
     [ConsumerCall.pauseCall c.topics])
  else (c, [])

/-- `BaseConsumer.resume()`: when the consumer object exists and the loop
is running, asks the transport to resume delivery for every configured
topic; otherwise does nothing. -/
def resume (c : ConsumerState) : ConsumerState × List ConsumerCall :=
  if c.consumerCreated && c.isRunning then
    ({ c with
        pausedTopics := c.pausedTopics.filter fun t => !(c.topics.contains t) },
     [ConsumerCall.resumeCall c.topics])
  else (c, [])

/-- Delivery is paused when every configured topic is in the transport's
paused set. -/
def deliveryPaused (c : ConsumerState) : Bool :=
  c.topics.all fun t => c.pausedTopics.contains t


/-! ### Claim C1: the message loop commits only on handler success -/

/-- C1: for every delivered message, the `eachMessage` callback installed
by `start` awaits the registered handler; when the handler completes
without error the callback returns normally and the transport advances its
progress for that message, and when the handler raises, the callback
re-throws the same error and the committed offset is not advanced. -/
theorem eachMessage_at_least_once (handler : MessageHandler)
    (payload : EachMessagePayload) :
    (handler payload = Except.ok () →
      consumerEachMessage handler payload = Except.ok ()
      ∧ offsetAdvanced (consumerEachMessage handler payload) = true)
    ∧ ∀ e, handler payload = Except.error e →
      consumerEachMessage handler payload = Except.error e
      ∧ offsetAdvanced (consumerEachMessage handler payload) = false := by
  constructor
  · intro h
    simp [consumerEachMessage, h, offsetAdvanced]
  · intro e h
    simp [consumerEachMessage, h, offsetAdvanced]

/-- A concrete delivered message. -/
def payloadEx : EachMessagePayload :=
  { topic := "banking.users.events", partition := 0, offset := 0,
    key := "u1", value := "m" }

/-- Witness for C1: a succeeding handler advances progress, a failing
handler re-throws and blocks it. -/
theorem eachMessage_at_least_once_witness :
    (consumerEachMessage (fun _ => Except.ok ()) payloadEx = Except.ok ()
      ∧ offsetAdvanced
          (consumerEachMessage (fun _ => Except.ok ()) payloadEx) = true)
    ∧ (consumerEachMessage (fun _ => Except.error "boom") payloadEx
        = Except.error "boom"
      ∧ offsetAdvanced
          (consumerEachMessage (fun _ => Except.error "boom") payloadEx)
        = false) :=
  ⟨(eachMessage_at_least_once (fun _ => Except.ok ()) payloadEx).1 rfl,
   (eachMessage_at_least_once (fun _ => Except.error "boom") payloadEx).2
     "boom" rfl⟩

/-! ### Claim C6: `start` without a handler -/

/-- C6: calling `start()` before any handler has been registered fails
with the handler-not-set error and makes no transport call at all — in
particular it never subscribes to any topic. -/
theorem start_without_handler (c : ConsumerState)
    (hcr : c.consumerCreated = true) :
    start c none = (Except.error ConsumerError.handlerNotSet, []) := by
  simp [start, hcr]

/-- A consumer as built by the constructor (consumer object assigned, not
yet running) and then connected. -/
def consumerEx : ConsumerState :=
  { consumerCreated := true, isConnected := true, isRunning := false,
    topics := ["test-topic"], pausedTopics := [] }

/-- Witness for C6 at a concrete consumer. -/
theorem start_without_handler_witness :
    consumerEx.consumerCreated = true
    ∧ start consumerEx none = (Except.error ConsumerError.handlerNotSet, []) :=
  ⟨rfl, start_without_handler consumerEx rfl⟩

/-! ### Claim C4: pause and resume -/

/-- C4: on a running subscriber, `pause()` asks the transport to pause all
configured topics — delivery becomes paused while the loop keeps running —
and `resume()` restores delivery (running, not paused); when the
subscriber is not running, `pause()` and `resume()` are no-ops: no
transport call, no state change. -/
theorem pause_resume_backpressure (c : ConsumerState)
    (hcr : c.consumerCreated = true) (ht : c.topics ≠ []) :
    (c.isRunning = true →
      (pause c).2 = [ConsumerCall.pauseCall c.topics]
      ∧ deliveryPaused (pause c).1 = true
      ∧ (pause c).1.isRunning = true
      ∧ (resume (pause c).1).2 = [ConsumerCall.resumeCall c.topics]
      ∧ deliveryPaused (resume (pause c).1).1 = false
      ∧ (resume (pause c).1).1.isRunning = true)
    ∧ (c.isRunning = false →
      pause c = (c, []) ∧ resume c = (c, [])) := by
  constructor
  · intro hr
    have hg : (c.consumerCreated && c.isRunning) = true := by
      rw [hcr, hr]; rfl
    have hpause1 : (pause c).1
        = { c with pausedTopics := c.pausedTopics ++ c.topics } := by
      simp [pause, hg]
    have hpause2 : (pause c).2 = [ConsumerCall.pauseCall c.topics] := by
      simp [pause, hg]
    have hresume1 : (resume (pause c).1).1
        = { c with pausedTopics := (c.pausedTopics ++ c.topics).filter (fun t => !(c.topics.contains t)) } := by
      rw [hpause1]; simp [resume, hg]
    have hresume2 : (resume (pause c).1).2
        = [ConsumerCall.resumeCall c.topics] := by
      rw [hpause1]; simp [resume, hg]
    have htopP : (pause c).1.topics = c.topics := by rw [hpause1]
    have hptP : (pause c).1.pausedTopics = c.pausedTopics ++ c.topics := by
      rw [hpause1]
    have htopR : (resume (pause c).1).1.topics = c.topics := by rw [hresume1]
    have hptR : (resume (pause c).1).1.pausedTopics
        = (c.pausedTopics ++ c.topics).filter (fun t => !(c.topics.contains t)) := by
      rw [hresume1]
    refine ⟨hpause2, ?_, by rw [hpause1]; exact hr, hresume2, ?_,
      by rw [hresume1]; exact hr⟩
    · unfold deliveryPaused
      rw [htopP, hptP, List.all_eq_true]
      intro t htm
      exact List.elem_eq_true_of_mem (List.mem_append_right _ htm)
    · unfold deliveryPaused
      rw [htopR, hptR, List.all_eq_false]
      cases hcase : c.topics with
      | nil => exact absurd hcase ht
      | cons t0 ts =>
          refine ⟨t0, List.mem_cons_self t0 ts, ?_⟩
          intro hcontains
          have hmem := List.mem_of_elem_eq_true hcontains
          have hq := (List.mem_filter.mp hmem).2
          simp at hq
  · intro hr
    have hg : (c.consumerCreated && c.isRunning) = false := by
      rw [hr]; simp
    exact ⟨by simp [pause, hg], by simp [resume, hg]⟩


/-- A running consumer with one configured topic. -/
def consumerRunEx : ConsumerState :=
  { consumerCreated := true, isConnected := true, isRunning := true,
    topics := ["test-topic"], pausedTopics := [] }

/-- Witness for C4: the running branch at a concrete running consumer, the
no-op branch at a concrete non-running consumer. -/
theorem pause_resume_backpressure_witness :
    ((pause consumerRunEx).2 = [ConsumerCall.pauseCall consumerRunEx.topics]
      ∧ deliveryPaused (pause consumerRunEx).1 = true
      ∧ (pause consumerRunEx).1.isRunning = true
      ∧ (resume (pause consumerRunEx).1).2
          = [ConsumerCall.resumeCall consumerRunEx.topics]
      ∧ deliveryPaused (resume (pause consumerRunEx).1).1 = false
      ∧ (resume (pause consumerRunEx).1).1.isRunning = true)
    ∧ (pause consumerEx = (consumerEx, [])
      ∧ resume consumerEx = (consumerEx, [])) :=
  ⟨(pause_resume_backpressure consumerRunEx rfl (by decide)).1 rfl,
   (pause_resume_backpressure consumerEx rfl (by decide)).2 rfl⟩

end BankingShared
